import Mathlib

/-!
Verification of the ingestion loop and persistence layer of
buzzline-05-sushanta (src/consumers/file_consumer_sushanta.py and
src/consumers/db_sqlite_case.py), as a shallow embedding in Lean 4.

Loosely-typed JSON values are modelled by `Value`; records read from the
live data file by `RawRecord` (each field optional, mirroring dict.get);
the dict built by `process_message` by `ProcessedMessage`; the SQLite
table by `DbState` (an optional list of rows plus an autoincrement
counter).  Operations that in Python can raise an exception that the code
catches (sqlite connect/commit, os.makedirs) take an explicit `ok : Bool`
oracle deciding whether the underlying side effect succeeds; the Lean
function then models exactly what the surrounding try/except does in each
case.
-/

/-- Loosely typed values appearing in a decoded JSON record. -/
inductive Value where
  | vStr : String → Value
  | vInt : Int → Value
  | vBool : Bool → Value
  | vNull : Value
  deriving DecidableEq, Repr

/-- Whether a value is a Python string. -/
def Value.isStr : Value → Bool
  | .vStr _ => true
  | _ => false

/-- Decimal digit value of a character, none for a non-digit. -/
def charDigit (c : Char) : Option Nat :=
  if '0' ≤ c ∧ c ≤ '9' then some (c.toNat - '0'.toNat) else none

/-- Accumulate a decimal digit run; fails on the first non-digit. -/
def parseDigitsAux : List Char → Nat → Option Nat
  | [], acc => some acc
  | c :: cs, acc =>
      match charDigit c with
      | some d => parseDigitsAux cs (acc * 10 + d)
      | none => none

/-- A nonempty all-digit run read as a natural number. -/
def parseDigits : List Char → Option Nat
  | [] => none
  | cs => parseDigitsAux cs 0

/-- ASCII whitespace accepted around a numeric literal. -/
def isSpaceChar (c : Char) : Bool :=
  c = ' ' || c = '\t' || c = '\n' || c = '\r'

/-- Drop surrounding whitespace. -/
def stripSpaces (cs : List Char) : List Char :=
  ((cs.dropWhile isSpaceChar).reverse.dropWhile isSpaceChar).reverse

/-- Model of Python int(s) on a string: strip surrounding whitespace,
allow one optional sign, then a nonempty digit run. -/
def pyStrToInt (s : String) : Option Int :=
  match stripSpaces s.data with
  | '-' :: rest => (parseDigits rest).map (fun n => -(n : Int))
  | '+' :: rest => (parseDigits rest).map (fun n => (n : Int))
  | cs => (parseDigits cs).map (fun n => (n : Int))

/-- Model of Python int(v): ints pass through, bools coerce to 0 or 1,
strings are parsed, None fails (TypeError). -/
def pyInt : Value → Option Int
  | .vInt n => some n
  | .vBool b => some (if b then 1 else 0)
  | .vStr s => pyStrToInt s
  | .vNull => none

/-- A record decoded from the live data file
(file_consumer_sushanta.py docstring shape).  `none` means the key is
absent from the dict, so `dict.get` falls back to its default. -/
structure RawRecord where
  message : Option Value
  author : Option Value
  timestamp : Option Value
  category : Option Value
  keyword_mentioned : Option Value
  message_length : Option Value
  deriving DecidableEq, Repr

/-- The dict built by process_message (file_consumer_sushanta.py lines
65-73): string-keyed fields keep whatever value the source had, with
defaults only for absent keys; message_length is the int() coercion. -/
structure ProcessedMessage where
  author : Value
  timestamp : Value
  message : Value
  category : Value
  keyword_mentioned : Value
  message_length : Int
  length_category : String
  deriving DecidableEq, Repr

/-- categorize_message_length (file_consumer_sushanta.py lines 38-45). -/
def categorize_message_length (message_length : Int) : String :=
  if message_length < 20 then "Short"
  else if message_length < 50 then "Medium"
  else "Long"

/-- process_message (file_consumer_sushanta.py lines 51-80):
int(message.get("message_length", 0)) is attempted first; if it raises,
the except branch returns None; otherwise every other field is read with
dict.get and its documented default, with no further validation. -/
def process_message (message : RawRecord) : Option ProcessedMessage :=
  match pyInt (message.message_length.getD (.vInt 0)) with
  | none => none
  | some message_length =>
      some
        { author := message.author.getD (.vStr "Unknown")
          timestamp := message.timestamp.getD (.vStr "")
          message := message.message.getD (.vStr "")
          category := message.category.getD (.vStr "Uncategorized")
          keyword_mentioned := message.keyword_mentioned.getD (.vStr "None")
          message_length := message_length
          length_category := categorize_message_length message_length }

/-- Claim C4: for every non-negative integer n the classifier returns
Short iff n < 20, Medium iff 20 ≤ n < 50, Long iff n ≥ 50, with the
boundary values 19/20/49/50 classified Short/Medium/Medium/Long. -/
theorem categorize_bands :
    (∀ n : Int, 0 ≤ n →
      ((categorize_message_length n = "Short" ↔ n < 20) ∧
       (categorize_message_length n = "Medium" ↔ 20 ≤ n ∧ n < 50) ∧
       (categorize_message_length n = "Long" ↔ 50 ≤ n))) ∧
    categorize_message_length 19 = "Short" ∧
    categorize_message_length 20 = "Medium" ∧
    categorize_message_length 49 = "Medium" ∧
    categorize_message_length 50 = "Long" := by
  refine ⟨fun n _ => ?_, by decide, by decide, by decide, by decide⟩
  unfold categorize_message_length
  split
  · refine ⟨by simp_all, ?_, ?_⟩ <;> simp_all <;> omega
  · split
    · refine ⟨by simp_all, ?_, ?_⟩ <;> simp_all <;> omega
    · refine ⟨by simp_all, ?_, ?_⟩ <;> simp_all <;> omega

/-- Witness for categorize_bands at n = 25. -/
theorem categorize_bands_witness :
    categorize_message_length 25 = "Medium" ↔ 20 ≤ (25 : Int) ∧ (25 : Int) < 50 :=
  (categorize_bands.1 25 (by decide)).2.1

/-- A row of the streamed_messages table (db_sqlite_case.py lines 56-67):
the seven CanonicalRecord columns in the schema's order plus the
AUTOINCREMENT id. -/
structure Row where
  id : Int
  message : Value
  author : Value
  timestamp : Value
  category : Value
  keyword_mentioned : Value
  message_length : Int
  length_category : String
  deriving DecidableEq, Repr

/-- The row the parameterized INSERT of insert_message builds from a
processed message and the id SQLite assigns. -/
def row_of (pm : ProcessedMessage) (rid : Int) : Row :=
  { id := rid
    message := pm.message
    author := pm.author
    timestamp := pm.timestamp
    category := pm.category
    keyword_mentioned := pm.keyword_mentioned
    message_length := pm.message_length
    length_category := pm.length_category }

/-- The seven payload columns of a row, without the assigned id. -/
def Row.payload (r : Row) : ProcessedMessage :=
  { author := r.author
    timestamp := r.timestamp
    message := r.message
    category := r.category
    keyword_mentioned := r.keyword_mentioned
    message_length := r.message_length
    length_category := r.length_category }

/-- State of the SQLite database file: `table = none` when the
streamed_messages table does not exist (statements against it raise),
`some rows` when it does; nextId is the AUTOINCREMENT counter, reset when
the table is dropped and recreated. -/
structure DbState where
  table : Option (List Row)
  nextId : Int
  deriving DecidableEq, Repr

/-- The database state of a fresh process start: no table yet. -/
def freshDb : DbState := { table := none, nextId := 1 }

/-- init_db (db_sqlite_case.py lines 34-72): on success it drops the
table if present and recreates it empty; any exception is caught and
logged, leaving the state as it was, and the function returns normally
either way. -/
def init_db (ok : Bool) (db : DbState) : DbState :=
  if ok then { table := some [], nextId := 1 } else db

/-- insert_message (db_sqlite_case.py lines 78-110): on success a single
row with the next AUTOINCREMENT id is appended; if the table is missing
or the connection/commit fails, the exception is caught and logged and
the state is unchanged.  The function returns normally either way. -/
def insert_message (ok : Bool) (pm : ProcessedMessage) (db : DbState) : DbState :=
  if ok then
    match db.table with
    | some rows => { table := some (rows ++ [row_of pm db.nextId]), nextId := db.nextId + 1 }
    | none => db
  else db

/-- delete_message (db_sqlite_case.py lines 116-131): DELETE FROM
streamed_messages WHERE id = ?; exceptions (including a missing table)
are caught and logged, leaving the state unchanged. -/
def delete_message (ok : Bool) (message_id : Int) (db : DbState) : DbState :=
  if ok then
    match db.table with
    | some rows => { db with table := some (rows.filter (fun r => r.id != message_id)) }
    | none => db
  else db

/-- The message_lengths dict of consume_messages_from_file line 101,
initialized to zero for all three categories. -/
structure Counts where
  short : Nat
  medium : Nat
  long : Nat
  deriving DecidableEq, Repr

/-- message_lengths[length_category] += 1 (line 116).  In the source the
key is always one of the three preset keys because it comes from
categorize_message_length; any other key would raise KeyError, modelled
here by an unreachable identity branch (see categorize_total). -/
def Counts.incr (c : Counts) (cat : String) : Counts :=
  if cat = "Short" then { c with short := c.short + 1 }
  else if cat = "Medium" then { c with medium := c.medium + 1 }
  else if cat = "Long" then { c with long := c.long + 1 }
  else c

/-- Sum of the three category counts. -/
def Counts.sum (c : Counts) : Nat := c.short + c.medium + c.long

/-- Mutable state threaded through one poll cycle: the database plus the
running message_lengths tally. -/
structure LoopState where
  db : DbState
  counts : Counts
  deriving DecidableEq, Repr

/-- The body of the for-loop of consume_messages_from_file (lines
108-116) for one raw record: process_message, and if it returned a
message (not None), insert it and bump the tally for its category.
`ok` decides whether the SQLite insert succeeds; the tally is bumped
after insert_message returns, which it does in every case. -/
def process_one (ok : Bool) (m : RawRecord) (s : LoopState) : LoopState :=
  match process_message m with
  | none => s
  | some pm =>
      { db := insert_message ok pm s.db
        counts := s.counts.incr pm.length_category }

/-- The for-loop over the decoded batch, from insert attempt number i;
oracle gives the outcome of each record's insert attempt. -/
def run_batch_from (oracle : Nat → Bool) (i : Nat) :
    List RawRecord → LoopState → LoopState
  | [], s => s
  | m :: ms, s => run_batch_from oracle (i + 1) ms (process_one (oracle i) m s)

/-- The full for-loop of one poll cycle. -/
def run_batch (oracle : Nat → Bool) (msgs : List RawRecord) (s : LoopState) : LoopState :=
  run_batch_from oracle 0 msgs s

/-- One poll cycle after a successful read and decode (lines 108-122):
run the for-loop, then hand the tally to generate_chart.  The second
component is the snapshot given to the chart; reaching it means the
cycle completed its processing and report steps. -/
def poll_cycle (oracle : Nat → Bool) (msgs : List RawRecord) (s : LoopState) :
    LoopState × Counts :=
  let s' := run_batch oracle msgs s
  (s', s'.counts)

/-- consume_messages_from_file start-up (lines 96-116) on a fresh
database, through the first decoded batch: init_db is called once (its
outcome decided by initOk, any failure caught inside init_db), then the
loop enters its first cycle unconditionally. -/
def consume_start (initOk : Bool) (oracle : Nat → Bool) (msgs : List RawRecord) : LoopState :=
  let db0 := init_db initOk freshDb
  run_batch oracle msgs { db := db0, counts := { short := 0, medium := 0, long := 0 } }

/-- A raw record whose only present field is a message_length of -7. -/
def rawNeg7 : RawRecord :=
  { message := none, author := none, timestamp := none, category := none,
    keyword_mentioned := none, message_length := some (.vInt (-7)) }

/-- A raw record with an integer (non-string) author and length 15. -/
def rawIntAuthor : RawRecord :=
  { message := none, author := some (.vInt 42), timestamp := none, category := none,
    keyword_mentioned := none, message_length := some (.vInt 15) }

/-- The record process_message produces from rawIntAuthor. -/
def pmIntAuthor : ProcessedMessage :=
  { author := .vInt 42, timestamp := .vStr "", message := .vStr "",
    category := .vStr "Uncategorized", keyword_mentioned := .vStr "None",
    message_length := 15, length_category := "Short" }

/-- Claim C10: categorize_message_length is total over every integer and
returns Short for every n < 20, negatives included; hence a raw record
whose message_length coerces to a negative integer is processed
successfully, keeping the negative length, with category Short. -/
theorem categorize_total_negative :
    (∀ n : Int,
      (categorize_message_length n = "Short" ∨ categorize_message_length n = "Medium" ∨
        categorize_message_length n = "Long") ∧
      (n < 20 → categorize_message_length n = "Short")) ∧
    (∀ (r : RawRecord) (m : Int), r.message_length = some (.vInt m) → m < 0 →
      ∃ pm, process_message r = some pm ∧ pm.message_length = m ∧
        pm.length_category = "Short") := by
  constructor
  · intro n
    constructor
    · unfold categorize_message_length
      split_ifs <;> tauto
    · intro h
      unfold categorize_message_length
      rw [if_pos (by omega)]
  · intro r m hr hm
    have hcat : categorize_message_length m = "Short" := by
      unfold categorize_message_length
      rw [if_pos (by omega)]
    refine ⟨{ author := r.author.getD (.vStr "Unknown"),
              timestamp := r.timestamp.getD (.vStr ""),
              message := r.message.getD (.vStr ""),
              category := r.category.getD (.vStr "Uncategorized"),
              keyword_mentioned := r.keyword_mentioned.getD (.vStr "None"),
              message_length := m,
              length_category := "Short" }, ?_, rfl, rfl⟩
    simp [process_message, hr, pyInt, hcat]

/-- Witness for categorize_total_negative at n = -7 and at rawNeg7. -/
theorem categorize_total_negative_witness :
    categorize_message_length (-7) = "Short" ∧
    (process_message rawNeg7).map ProcessedMessage.length_category = some "Short" := by
  refine ⟨(categorize_total_negative.1 (-7)).2 (by decide), ?_⟩
  obtain ⟨pm, hp, -, hcat⟩ := categorize_total_negative.2 rawNeg7 (-7) rfl (by decide)
  rw [hp]
  simpa using hcat

/-- Counterexample to claim C2: a message_length of -5 is present and
coercible only to a negative integer, yet process_message succeeds
instead of returning None. -/
theorem negative_length_accepted :
    (process_message
      { message := none, author := none, timestamp := none, category := none,
        keyword_mentioned := none, message_length := some (.vInt (-5)) }).isSome = true := by
  decide

/-- Claim C2 as amended: a present message_length fails normalization
exactly when int() cannot coerce it to an integer at all; negative
integers are accepted, and an absent message_length defaults to 0. -/
theorem length_validation_amended (r : RawRecord) :
    (∀ v, r.message_length = some v → (process_message r = none ↔ pyInt v = none)) ∧
    (r.message_length = none →
      ∃ pm, process_message r = some pm ∧ pm.message_length = 0) := by
  constructor
  · intro v hv
    constructor
    · intro h
      cases hpy : pyInt v with
      | none => rfl
      | some n => simp [process_message, hv, hpy] at h
    · intro h
      simp [process_message, hv, h]
  · intro h
    refine ⟨{ author := r.author.getD (.vStr "Unknown"),
              timestamp := r.timestamp.getD (.vStr ""),
              message := r.message.getD (.vStr ""),
              category := r.category.getD (.vStr "Uncategorized"),
              keyword_mentioned := r.keyword_mentioned.getD (.vStr "None"),
              message_length := 0,
              length_category := categorize_message_length 0 }, ?_, rfl⟩
    simp [process_message, h, pyInt]

/-- Witness for length_validation_amended: a non-numeric string length
is rejected. -/
theorem length_validation_amended_witness :
    process_message
      { message := none, author := none, timestamp := none, category := none,
        keyword_mentioned := none, message_length := some (.vStr "abc") } = none :=
  ((length_validation_amended _).1 (.vStr "abc") rfl).mpr (by decide)

/-- Counterexample to claim C5: an integer author is accepted, but the
resulting author field is the integer itself, not a string obtained by
stringification. -/
theorem nonstring_author_not_stringified :
    (process_message rawIntAuthor).map ProcessedMessage.author = some (.vInt 42) ∧
    (Value.vInt 42).isStr = false := by
  constructor <;> decide

/-- Claim C5 as amended: when normalization succeeds, every present
string-keyed field of the source record is passed through to the result
unchanged, whatever its type — no stringification is applied. -/
theorem string_fields_passthrough (r : RawRecord) (pm : ProcessedMessage)
    (hp : process_message r = some pm) :
    (∀ v, r.author = some v → pm.author = v) ∧
    (∀ v, r.timestamp = some v → pm.timestamp = v) ∧
    (∀ v, r.message = some v → pm.message = v) ∧
    (∀ v, r.category = some v → pm.category = v) ∧
    (∀ v, r.keyword_mentioned = some v → pm.keyword_mentioned = v) := by
  unfold process_message at hp
  rcases hpy : pyInt (r.message_length.getD (.vInt 0)) with - | n
  · rw [hpy] at hp
    exact absurd hp (by simp)
  · rw [hpy] at hp
    simp only [Option.some.injEq] at hp
    refine ⟨?_, ?_, ?_, ?_, ?_⟩ <;> intro v hv <;> simp [← hp, hv]

/-- Witness for string_fields_passthrough at rawIntAuthor. -/
theorem string_fields_passthrough_witness : pmIntAuthor.author = .vInt 42 :=
  (string_fields_passthrough rawIntAuthor pmIntAuthor (by decide)).1 (.vInt 42) rfl

/-- Claim C6: a raw record whose only present field is a valid (coercible,
non-negative) message_length normalizes to exactly the documented
defaults, with length_category computed from the length. -/
theorem defaults_record (v : Value) (n : Int) (h : pyInt v = some n) (hn : 0 ≤ n) :
    process_message
      { message := none, author := none, timestamp := none, category := none,
        keyword_mentioned := none, message_length := some v } =
      some { author := .vStr "Unknown", timestamp := .vStr "", message := .vStr "",
             category := .vStr "Uncategorized", keyword_mentioned := .vStr "None",
             message_length := n,
             length_category := categorize_message_length n } := by
  simp [process_message, h]

/-- Witness for defaults_record at message_length 30. -/
theorem defaults_record_witness :
    process_message
      { message := none, author := none, timestamp := none, category := none,
        keyword_mentioned := none, message_length := some (.vInt 30) } =
      some { author := .vStr "Unknown", timestamp := .vStr "", message := .vStr "",
             category := .vStr "Uncategorized", keyword_mentioned := .vStr "None",
             message_length := 30, length_category := "Medium" } := by
  have h := defaults_record (.vInt 30) 30 rfl (by decide)
  simpa [categorize_message_length] using h

/-- The classifier hits exactly one of the three preset dict keys. -/
lemma categorize_cases (n : Int) :
    categorize_message_length n = "Short" ∨ categorize_message_length n = "Medium" ∨
      categorize_message_length n = "Long" := by
  unfold categorize_message_length
  split_ifs <;> tauto

/-- Bumping the tally at a classifier output adds exactly one. -/
lemma incr_sum (c : Counts) (n : Int) :
    (c.incr (categorize_message_length n)).sum = c.sum + 1 := by
  rcases categorize_cases n with h | h | h <;>
    rw [h] <;> simp [Counts.incr, Counts.sum] <;> omega

/-- A processed message's category is the classifier applied to its
length. -/
lemma process_message_cat (m : RawRecord) (pm : ProcessedMessage)
    (h : process_message m = some pm) :
    pm.length_category = categorize_message_length pm.message_length := by
  unfold process_message at h
  rcases hpy : pyInt (m.message_length.getD (.vInt 0)) with - | n
  · rw [hpy] at h
    exact absurd h (by simp)
  · rw [hpy] at h
    simp only [Option.some.injEq] at h
    rw [← h]

/-- Inserting into a missing table raises inside insert_message, which
catches it: the state is unchanged. -/
lemma insert_none (ok : Bool) (pm : ProcessedMessage) (db : DbState)
    (h : db.table = none) : insert_message ok pm db = db := by
  cases ok <;> simp [insert_message, h]

/-- The id column is not part of the inserted payload. -/
lemma payload_row_of (pm : ProcessedMessage) (rid : Int) :
    Row.payload (row_of pm rid) = pm := rfl

/-- The tally after the for-loop grows by one per record that
process_message accepted, whatever the insert outcomes were. -/
lemma run_batch_from_sum (oracle : Nat → Bool) (msgs : List RawRecord) :
    ∀ (i : Nat) (s : LoopState),
      (run_batch_from oracle i msgs s).counts.sum =
        s.counts.sum + (msgs.filterMap process_message).length := by
  induction msgs with
  | nil => intro i s; simp [run_batch_from]
  | cons m ms ih =>
      intro i s
      rw [run_batch_from, ih]
      cases hp : process_message m with
      | none => simp [process_one, hp]
      | some pm =>
          have hc : pm.length_category = categorize_message_length pm.message_length :=
            process_message_cat m pm hp
          simp only [process_one, hp, List.filterMap_cons, List.length_cons]
          rw [hc, incr_sum]
          omega

/-- If the table was never created, no iteration of the for-loop creates
it. -/
lemma run_batch_from_no_table (oracle : Nat → Bool) (msgs : List RawRecord) :
    ∀ (i : Nat) (s : LoopState), s.db.table = none →
      (run_batch_from oracle i msgs s).db.table = none := by
  induction msgs with
  | nil => intro i s h; exact h
  | cons m ms ih =>
      intro i s h
      rw [run_batch_from]
      apply ih
      cases hp : process_message m with
      | none => simpa [process_one, hp]
      | some pm => simp [process_one, hp, insert_none _ _ _ h, h]

/-- With every insert succeeding, the for-loop appends exactly the
accepted records, in source order, to the table. -/
lemma run_batch_from_table (msgs : List RawRecord) :
    ∀ (i : Nat) (s : LoopState) (rows : List Row), s.db.table = some rows →
      ∃ rows2, (run_batch_from (fun _ => true) i msgs s).db.table = some rows2 ∧
        rows2.map Row.payload = rows.map Row.payload ++ msgs.filterMap process_message := by
  induction msgs with
  | nil => intro i s rows h; exact ⟨rows, h, by simp⟩
  | cons m ms ih =>
      intro i s rows h
      rw [run_batch_from]
      cases hp : process_message m with
      | none =>
          obtain ⟨rows2, h1, h2⟩ :=
            ih (i + 1) (process_one ((fun _ => true) i) m s) rows
              (by simpa [process_one, hp])
          exact ⟨rows2, h1, by simp [hp, h2]⟩
      | some pm =>
          have hdb : (process_one ((fun _ => true) i) m s).db.table =
              some (rows ++ [row_of pm s.db.nextId]) := by
            simp [process_one, hp, insert_message, h]
          obtain ⟨rows2, h1, h2⟩ := ih (i + 1) _ _ hdb
          refine ⟨rows2, h1, ?_⟩
          rw [h2]
          simp [hp, payload_row_of]

/-- A raw record (length 5) that normalizes to category Short. -/
def rawShort5 : RawRecord :=
  { message := none, author := none, timestamp := none, category := none,
    keyword_mentioned := none, message_length := some (.vInt 5) }

/-- A raw record whose message_length is None: int(None) raises, so
process_message returns None. -/
def rawBad : RawRecord :=
  { message := none, author := none, timestamp := none, category := none,
    keyword_mentioned := none, message_length := some .vNull }

/-- The loop state right after a successful init_db. -/
def initState : LoopState :=
  { db := { table := some [], nextId := 1 },
    counts := { short := 0, medium := 0, long := 0 } }

/-- A sample stored row with a given id. -/
def sampleRow (rid : Int) : Row :=
  { id := rid, message := .vStr "", author := .vStr "", timestamp := .vStr "",
    category := .vStr "", keyword_mentioned := .vStr "", message_length := 0,
    length_category := "Short" }

/-- A database holding two rows with ids 1 and 2. -/
def sampleDb : DbState :=
  { table := some [sampleRow 1, sampleRow 2], nextId := 3 }

/-- Counterexample to claim C1: with one record and a failing insert,
the Short tally still reaches 1 while zero rows were inserted, so the
tally is not incremented "iff the insertion succeeded" and the sum of
the counts exceeds the number of inserted rows. -/
theorem counts_bumped_despite_insert_failure :
    (consume_start true (fun _ => false) [rawShort5]).counts.sum = 1 ∧
    (consume_start true (fun _ => false) [rawShort5]).db.table = some [] := by
  constructor <;> decide

/-- Claim C1 as amended: insert_message swallows its own failures, so
the loop bumps the tally for every record process_message accepted,
regardless of insert outcome; after any batch the sum of the three
counts equals the number of records accepted by process_message since
process start, not the number of rows stored. -/
theorem counts_sum_eq_processed (oracle : Nat → Bool) (msgs : List RawRecord) :
    (consume_start true oracle msgs).counts.sum =
      (msgs.filterMap process_message).length ∧
    ∀ (s : LoopState), (run_batch oracle msgs s).counts.sum =
      s.counts.sum + (msgs.filterMap process_message).length := by
  constructor
  · have h := run_batch_from_sum oracle msgs 0
      { db := init_db true freshDb, counts := { short := 0, medium := 0, long := 0 } }
    simpa [consume_start, run_batch, Counts.sum] using h
  · intro s
    exact run_batch_from_sum oracle msgs 0 s

/-- Counterexample to claim C3: with init_db failing (its exception is
caught internally), the loop still enters its first cycle and processes
a record — the tally reaches 1 — so a failed initialization is not fatal
and the loop does proceed to poll, normalize and attempt inserts. -/
theorem failed_init_still_processes :
    (consume_start false (fun _ => true) [rawShort5]).counts.sum = 1 ∧
    (consume_start false (fun _ => true) [rawShort5]).db.table = none := by
  constructor <;> decide

/-- Claim C3 as amended: a failed initialize is caught and logged inside
init_db, and consume_messages_from_file proceeds to poll and normalize
anyway; with no table ever created, every insert fails silently, so no
row is stored while the tally still grows per accepted record. -/
theorem failed_init_amended (oracle : Nat → Bool) (msgs : List RawRecord) :
    (consume_start false oracle msgs).db.table = none ∧
    (consume_start false oracle msgs).counts.sum =
      (msgs.filterMap process_message).length := by
  constructor
  · show (run_batch_from oracle 0 msgs _).db.table = none
    exact run_batch_from_no_table oracle msgs 0 _ rfl
  · have h := run_batch_from_sum oracle msgs 0
      { db := init_db false freshDb, counts := { short := 0, medium := 0, long := 0 } }
    simpa [consume_start, run_batch, Counts.sum] using h

/-- Claim C7: a successful init_db leaves the table existing and empty
whatever the previous state held, wipes whatever any earlier insert
added, and repeated calls are idempotent in effect. -/
theorem init_resets_table (db : DbState) :
    (init_db true db).table = some [] ∧
    (∀ ok pm, init_db true (insert_message ok pm db) = init_db true db) ∧
    init_db true (init_db true db) = init_db true db :=
  ⟨rfl, fun _ _ => rfl, rfl⟩

/-- With distinct ids, at most one row carries a given id, so the
DELETE's filter drops at most one row. -/
lemma filter_ne_len (message_id : Int) :
    ∀ rows : List Row, (rows.map Row.id).Nodup →
      rows.length ≤ (rows.filter (fun r => r.id != message_id)).length + 1 := by
  intro rows
  induction rows with
  | nil => simp
  | cons r rs ih =>
      intro h
      rw [List.map_cons, List.nodup_cons] at h
      by_cases hr : r.id = message_id
      · have hall : ∀ x ∈ rs, x.id ≠ message_id := by
          intro x hx hxe
          exact h.1 (by rw [hr, ← hxe]; exact List.mem_map_of_mem Row.id hx)
        have hfix : rs.filter (fun r => r.id != message_id) = rs :=
          List.filter_eq_self.mpr (fun a ha => by
            simpa [bne_iff_ne] using hall a ha)
        simp [List.filter_cons, hr, hfix]
      · have hkeep : (fun x => x.id != message_id) r = true := by
          simpa [bne_iff_ne] using hr
        simp only [List.filter_cons, hkeep, if_pos, List.length_cons]
        have := ih h.2
        omega

/-- Claim C8: DELETE by id touches at most one row (ids are unique),
keeps every row with a different id unchanged, leaves the
autoincrement counter alone, and deleting an id no row has returns
successfully with the table unchanged. -/
theorem delete_at_most_one (message_id : Int) (db : DbState) (rows : List Row)
    (htab : db.table = some rows) (hnd : (rows.map Row.id).Nodup) :
    ∃ rows2,
      (delete_message true message_id db).table = some rows2 ∧
      (delete_message true message_id db).nextId = db.nextId ∧
      rows2.Sublist rows ∧
      (∀ r ∈ rows, r.id ≠ message_id → r ∈ rows2) ∧
      rows.length ≤ rows2.length + 1 ∧
      ((∀ r ∈ rows, r.id ≠ message_id) → rows2 = rows) := by
  refine ⟨rows.filter (fun r => r.id != message_id), ?_, ?_, ?_, ?_, ?_, ?_⟩
  · simp [delete_message, htab]
  · simp [delete_message, htab]
  · exact List.filter_sublist rows
  · intro r hr hne
    exact List.mem_filter.mpr ⟨hr, by simpa [bne_iff_ne] using hne⟩
  · exact filter_ne_len message_id rows hnd
  · intro hall
    exact List.filter_eq_self.mpr (fun a ha => by simpa [bne_iff_ne] using hall a ha)

/-- Witness for delete_at_most_one: deleting absent id 5 from a
two-row table changes nothing. -/
theorem delete_at_most_one_witness :
    (delete_message true 5 sampleDb).table = some [sampleRow 1, sampleRow 2] := by
  obtain ⟨rows2, h1, -, -, -, -, h6⟩ :=
    delete_at_most_one 5 sampleDb [sampleRow 1, sampleRow 2] rfl (by decide)
  rw [h1, h6 (by decide)]

/-- Claim C9: within one cycle a record process_message rejects is the
only one skipped — every accepted record is inserted in source order
and counted — and the cycle still reaches its report step, whose
snapshot is the final tally. -/
theorem batch_isolation (msgs : List RawRecord) (s : LoopState) (rows : List Row)
    (htab : s.db.table = some rows) :
    ∃ rows2,
      (poll_cycle (fun _ => true) msgs s).1.db.table = some rows2 ∧
      rows2.map Row.payload = rows.map Row.payload ++ msgs.filterMap process_message ∧
      (poll_cycle (fun _ => true) msgs s).2 =
        (poll_cycle (fun _ => true) msgs s).1.counts ∧
      (poll_cycle (fun _ => true) msgs s).1.counts.sum =
        s.counts.sum + (msgs.filterMap process_message).length := by
  obtain ⟨rows2, h1, h2⟩ := run_batch_from_table msgs 0 s rows htab
  exact ⟨rows2, h1, h2, rfl, run_batch_from_sum _ msgs 0 s⟩

/-- Witness for batch_isolation: a batch holding one rejected and one
accepted record yields a tally of exactly 1. -/
theorem batch_isolation_witness :
    (poll_cycle (fun _ => true) [rawBad, rawShort5] initState).1.counts.sum = 1 := by
  obtain ⟨rows2, -, -, -, h4⟩ :=
    batch_isolation [rawBad, rawShort5] initState [] rfl
  rw [h4]
  decide
